import Mathlib

/-!
Shallow embedding of the request-construction and response-normalization
engine of the rest-api-mcp-server (src/index.ts): JavaScript values,
content-type inference, request-config building, retry orchestration,
response/error formatting and the tool-call handler, together with
theorems settling the specification claims.
-/

set_option maxRecDepth 4096

namespace RestApiMcp

/-- Model of a JavaScript (JSON-like) runtime value. `undefined` is modelled
by `Option` at use sites (an absent field / absent argument). -/
inductive JValue where
  | null
  | bool (b : Bool)
  | num (n : Int)
  | str (s : String)
  | arr (xs : List JValue)
  | obj (fields : List (String × JValue))

/-- First-match association lookup (JS property access on a plain object;
keys are unique in a real JS object). -/
def alookup {α : Type} (fs : List (String × α)) (k : String) : Option α :=
  match fs with
  | [] => Option.none
  | (k0, v0) :: rest => if k0 = k then some v0 else alookup rest k

namespace JValue

/-- JavaScript truthiness of a value (`if (v)`); `undefined` (absence) is
handled by the `Option` layer at use sites. -/
def truthy : JValue → Bool
  | .null => false
  | .bool b => b
  | .num n => n != 0
  | .str s => s != ""
  | .arr _ => true
  | .obj _ => true

/-- Truthiness of a possibly-undefined value (`Option JValue`). -/
def truthyOpt : Option JValue → Bool
  | none => false
  | some v => v.truthy

/-- Property access `v.k` for a non-null value: defined fields of objects,
`undefined` (`none`) otherwise. (Access on `null` throws in JS and is
modelled explicitly at the use sites where it can occur.) -/
def getProp (v : JValue) (k : String) : Option JValue :=
  match v with
  | .obj fs => alookup fs k
  | _ => none

/-- Is `typeof v === 'object'` (true for null, arrays and plain objects)? -/
def isObjLike : JValue → Bool
  | .null => true
  | .arr _ => true
  | .obj _ => true
  | _ => false

/-- Is this value JS `null`? -/
def isNull : JValue → Bool
  | .null => true
  | _ => false

/-- Is the value one of string / number / boolean / null (the scalar test of
`detectContentType`)? -/
def isScalar : JValue → Bool
  | .str _ => true
  | .num _ => true
  | .bool _ => true
  | .null => true
  | _ => false

end JValue

/-- JavaScript string truthiness of a possibly-undefined string field. -/
def truthyStr : Option String → Bool
  | none => false
  | some s => s != ""

/-- JS object-key assignment `o[k] = v`: replace the value at the first
occurrence of `k` (object keys are unique in a real JS object), else append. -/
def assocInsert {α : Type} (fs : List (String × α)) (k : String) (v : α) :
    List (String × α) :=
  match fs with
  | [] => [(k, v)]
  | (k0, v0) :: rest =>
    if k0 = k then (k0, v) :: rest else (k0, v0) :: assocInsert rest k v

/-- JS object spread `{...a, ...b}`: start from `a` and assign each entry
of `b` in order. -/
def assocMerge {α : Type} (a b : List (String × α)) : List (String × α) :=
  b.foldl (fun acc kv => assocInsert acc kv.1 kv.2) a

/-- `String(v)` coercion of a JS value. -/
def jsToString : JValue → String
  | .null => "null"
  | .bool b => if b then "true" else "false"
  | .num n => toString n
  | .str s => s
  | .arr xs => String.intercalate "," (xs.map fun v =>
      match v with
      | .str s => s
      | .num n => toString n
      | .bool b => if b then "true" else "false"
      | .null => ""
      | _ => "")
  | .obj _ => "[object Object]"

/-- `Object.entries(v)` for a truthy (hence non-null) value: fields of an
object, indexed elements of an array, indexed characters of a string,
empty for other primitives. -/
def jsEntries : JValue → List (String × JValue)
  | .obj fs => fs
  | .arr xs => (List.range xs.length).zip xs |>.map fun p => (toString p.1, p.2)
  | .str s => (List.range s.length).zip (s.toList.map fun c => JValue.str (String.mk [c]))
      |>.map fun p => (toString p.1, p.2)
  | _ => []

/-- Escape one character for a JSON string literal. -/
def jsonEscapeChar (c : Char) : String :=
  if c = '"' then "\\\""
  else if c = '\\' then "\\\\"
  else if c = '\n' then "\\n"
  else if c = '\t' then "\\t"
  else if c = '\r' then "\\r"
  else String.mk [c]

/-- JSON string literal. -/
def jsonQuote (s : String) : String :=
  "\"" ++ String.join (s.toList.map jsonEscapeChar) ++ "\""

mutual

/-- `JSON.stringify(v)` (compact form, as used for GraphQL GET variables). -/
def jsonStringify : JValue → String
  | .null => "null"
  | .bool b => if b then "true" else "false"
  | .num n => toString n
  | .str s => jsonQuote s
  | .arr xs => "[" ++ jsonStringifyList xs ++ "]"
  | .obj fs => "\x7b" ++ jsonStringifyFields fs ++ "\x7d"

def jsonStringifyList : List JValue → String
  | [] => ""
  | [v] => jsonStringify v
  | v :: rest => jsonStringify v ++ "," ++ jsonStringifyList rest

def jsonStringifyFields : List (String × JValue) → String
  | [] => ""
  | [(k, v)] => jsonQuote k ++ ":" ++ jsonStringify v
  | (k, v) :: rest => jsonQuote k ++ ":" ++ jsonStringify v ++ "," ++ jsonStringifyFields rest

end

/-- Content-type inference from an untyped body
(source: `detectContentType`). Returns `none` for a falsy body
(`if (!body) return undefined`). -/
def detectContentType (body : JValue) : Option String :=
  if !body.truthy then none
  else if body.isObjLike && JValue.truthyOpt (body.getProp "files") &&
      (match body.getProp "files" with
       | some (JValue.arr _) => true
       | _ => false) then
    some "multipart/form-data"
  else
    let formCase :=
      match body with
      | .obj fs =>
        let values := fs.map Prod.snd
        let allScalar := values.all JValue.isScalar
        allScalar && (fs.map Prod.fst).any fun k => k.toList.contains '_' || k == "grant_type"
      | _ => false
    if formCase then some "application/x-www-form-urlencoded"
    else some "application/json"

/-- Filesystem model: absolute path to file bytes. -/
abbrev FS := List (String × List Nat)

def fsRead (fs : FS) (path : String) : Option (List Nat) := alookup fs path

def fsWrite (fs : FS) (path : String) (bs : List Nat) : FS := assocInsert fs path bs

/-- Model of Node's single-argument `resolve(p)` against a current working
directory. -/
def resolvePath (cwd p : String) : String :=
  if p.toList.head? = some '/' then p
  else if p = "" then cwd
  else cwd ++ "/" ++ p

/-- Last path segment: `filePath.split(/[\\/]/).pop()`. -/
def lastSegment (p : String) : String :=
  String.mk ((p.toList.reverse.takeWhile fun c => !(c = '/' || c = '\\')).reverse)

/-- Uppercase hex digit. -/
def hexDigit (n : Nat) : String :=
  String.mk [(if n < 10 then Char.ofNat (48 + n) else Char.ofNat (55 + n))]

/-- Byte kept verbatim by `URLSearchParams` serialization
(ASCII alphanumerics and `*-._`). -/
def isFormSafeByte (n : Nat) : Bool :=
  (48 ≤ n && n ≤ 57) || (65 ≤ n && n ≤ 90) || (97 ≤ n && n ≤ 122) ||
  n = 42 || n = 45 || n = 46 || n = 95

/-- UTF-8 encoding of one character. -/
def charUtf8 (c : Char) : List Nat :=
  let n := c.toNat
  if n < 128 then [n]
  else if n < 2048 then [192 + n / 64, 128 + n % 64]
  else if n < 65536 then [224 + n / 4096, 128 + (n / 64) % 64, 128 + n % 64]
  else [240 + n / 262144, 128 + (n / 4096) % 64, 128 + (n / 64) % 64, 128 + n % 64]

/-- UTF-8 encoding of a string, as a byte list. -/
def utf8Bytes (s : String) : List Nat :=
  (s.toList.map charUtf8).flatten

/-- `application/x-www-form-urlencoded` escaping of one string
(space to `+`, unsafe bytes percent-encoded over UTF-8). -/
def formEncode (s : String) : String :=
  String.join ((utf8Bytes s).map fun n =>
    if n = 32 then "+"
    else if isFormSafeByte n then String.mk [Char.ofNat n]
    else "%" ++ hexDigit (n / 16) ++ hexDigit (n % 16))

/-- The `authType` tag (source: `AuthTypeSchema`). -/
inductive AuthType where
  | none
  | apiKey
  | bearer
  | basic
deriving DecidableEq, Repr

/-- A validated `rest_api_request` argument bag
(source: `RestApiRequestSchema`), with the zod defaults applied. -/
structure RequestSpec where
  url : String
  method : String := "GET"
  body : Option JValue := Option.none
  headers : Option (List (String × String)) := Option.none
  queryParams : Option (List (String × JValue)) := Option.none
  contentType : Option String := Option.none
  saveResponseTo : Option String := Option.none
  timeout : Int := 30000
  authType : AuthType := AuthType.none
  apiKey : Option String := Option.none
  apiKeyHeader : String := "X-API-Key"
  bearerToken : Option String := Option.none
  username : Option String := Option.none
  password : Option String := Option.none

/-- One part of a multipart form payload. -/
structure FormPart where
  name : String
  filename : Option String := Option.none
  mimeType : Option String := Option.none
  content : List Nat ⊕ String

/-- The serialized request payload carried in `config.data`. -/
inductive Payload where
  | form (boundary : String) (parts : List FormPart)
  | urlencoded (s : String)
  | raw (v : JValue)

/-- The transport descriptor (the `AxiosRequestConfig` fields this program
sets). -/
structure AxiosConfig where
  method : String
  url : String
  timeout : Int
  headers : List (String × String)
  params : Option (List (String × JValue)) := Option.none
  data : Option Payload := Option.none
  auth : Option (String × String) := Option.none
  responseType : Option String := Option.none

/-- A transport response body: decoded JSON-like value or raw bytes
(`responseType: 'arraybuffer'`). -/
inductive RespData where
  | jval (v : JValue)
  | bytes (bs : List Nat)

/-- An HTTP response as delivered by the transport. -/
structure Response where
  status : Nat
  statusText : String
  headers : List (String × String)
  data : RespData

/-- A thrown JS error as observed by this program: the axios flag,
a message, and the optional attached HTTP response. -/
structure JsError where
  isAxiosError : Bool := false
  message : String := ""
  response : Option Response := Option.none

/-- A non-axios runtime error (TypeError, filesystem error, ...). -/
def typeError (msg : String) : JsError := { message := msg }

/-- The content type used for body encoding: `params.contentType` if truthy,
else `detectContentType(params.body)` when the body is truthy
(source lines 86-89). -/
def resolvedContentType (params : RequestSpec) : Option String :=
  if !truthyStr params.contentType && JValue.truthyOpt params.body then
    match params.body with
    | some b => detectContentType b
    | Option.none => Option.none
  else params.contentType

/-- `contentType || 'application/json'`. -/
def ctOrDefault (ct : Option String) : String :=
  match ct with
  | some c => if c = "" then "application/json" else c
  | Option.none => "application/json"

/-- The config before body encoding: method, url, timeout, caller headers
(copied), query params, and the `Accept: */*` default when the caller's
`Accept` is absent or falsy (source lines 74-84). -/
def preBodyConfig (params : RequestSpec) : AxiosConfig :=
  let headers0 := params.headers.getD []
  let headers1 :=
    if truthyStr (alookup headers0 "Accept") then headers0
    else assocInsert headers0 "Accept" "*/*"
  { method := if params.method = "" then "GET" else params.method
    url := params.url
    timeout := params.timeout
    headers := headers1
    params := params.queryParams }

/-- Build one file part of the multipart payload (source lines 94-105):
resolve the path, read the bytes, apply the `fieldName`/`filename`
fallbacks. A non-string `path` or a missing file throws. -/
def buildFilePart (fs : FS) (cwd : String) (fileSpec : JValue) :
    Except JsError FormPart :=
  match fileSpec.getProp "path" with
  | some (JValue.str p) =>
    let filePath := resolvePath cwd p
    match fsRead fs filePath with
    | some fileBuffer =>
      .ok { name :=
              match fileSpec.getProp "fieldName" with
              | some v => if v.truthy then jsToString v else "file"
              | Option.none => "file"
            filename := some
              (match fileSpec.getProp "filename" with
               | some v => if v.truthy then jsToString v else lastSegment filePath
               | Option.none => lastSegment filePath)
            mimeType := (fileSpec.getProp "mimeType").map jsToString
            content := Sum.inl fileBuffer }
    | Option.none =>
      .error (typeError ("ENOENT: no such file or directory, open " ++ filePath))
  | _ => .error (typeError "The path argument must be of type string")

/-- The scalar `fields` of a multipart body appended as plain parts
(source lines 106-110). -/
def scalarParts (fieldsVal : JValue) : List FormPart :=
  (jsEntries fieldsVal).map fun kv =>
    { name := kv.1, content := Sum.inr (jsToString kv.2) }

/-- The multipart branch of body encoding (source lines 92-115): build the
form payload and merge `form.getHeaders()` (a lowercase `content-type`
carrying the generated boundary) over the existing headers. -/
def encodeMultipart (fs : FS) (cwd : String) (boundary : String) (body : JValue)
    (config : AxiosConfig) : Except JsError AxiosConfig :=
  match body.getProp "files" with
  | some (JValue.arr files) => do
    let fileParts ← files.mapM (buildFilePart fs cwd)
    let fieldParts :=
      match body.getProp "fields" with
      | some f => if f.truthy then scalarParts f else []
      | Option.none => []
    .ok { config with
          data := some (.form boundary (fileParts ++ fieldParts))
          headers := assocInsert config.headers "content-type"
            ("multipart/form-data; boundary=" ++ boundary) }
  | _ => .error (typeError "params.body.files is not iterable")

/-- The urlencoded / json-raw branches of body encoding
(source lines 116-126). -/
def encodeNonMultipart (body : JValue) (ct : Option String)
    (config : AxiosConfig) : Except JsError AxiosConfig :=
  if ct == some "application/x-www-form-urlencoded" then
    match body with
    | JValue.null => .error (typeError "Cannot convert undefined or null to object")
    | b =>
      let pairs := jsEntries b
      let s := String.intercalate "&"
        (pairs.map fun kv => formEncode kv.1 ++ "=" ++ formEncode (jsToString kv.2))
      .ok { config with
            data := some (.urlencoded s)
            headers := assocInsert config.headers "Content-Type"
              "application/x-www-form-urlencoded" }
  else
    .ok { config with
          headers := assocInsert config.headers "Content-Type" (ctOrDefault ct)
          data := some (.raw body) }

/-- Body encoding (source lines 91-127): skipped when the body is absent;
otherwise dispatch on the resolved content type exactly as the source's
`if / else if / else` chain does (including the crash on accessing
`.files` of a null body). -/
def encodeBody (params : RequestSpec) (fs : FS) (cwd : String) (boundary : String)
    (config : AxiosConfig) : Except JsError AxiosConfig :=
  match params.body with
  | Option.none => .ok config
  | some body =>
    let ct := resolvedContentType params
    if ct == some "multipart/form-data" && body.isObjLike then
      if body.isNull then
        .error (typeError "Cannot read properties of null (reading files)")
      else if JValue.truthyOpt (body.getProp "files") then
        encodeMultipart fs cwd boundary body config
      else encodeNonMultipart body ct config
    else encodeNonMultipart body ct config

/-- The auth switch (source lines 129-148): inject the selected strategy's
credentials into the in-progress config when they are truthy. -/
def applyAuth (params : RequestSpec) (config : AxiosConfig) : AxiosConfig :=
  match params.authType with
  | AuthType.apiKey =>
    if truthyStr params.apiKey then
      { config with headers := (assocInsert config.headers
          (if params.apiKeyHeader = "" then "X-API-Key" else params.apiKeyHeader)
          (params.apiKey.getD "")) }
    else config
  | AuthType.bearer =>
    if truthyStr params.bearerToken then
      { config with headers := (assocInsert config.headers "Authorization"
          ("Bearer " ++ params.bearerToken.getD "")) }
    else config
  | AuthType.basic =>
    if truthyStr params.username && truthyStr params.password then
      { config with auth := some (params.username.getD "", params.password.getD "") }
    else config
  | AuthType.none => config

/-- Source lines 150-152: a truthy `saveResponseTo` switches the response
handling to raw bytes. -/
def applySave (params : RequestSpec) (config : AxiosConfig) : AxiosConfig :=
  if truthyStr params.saveResponseTo then
    { config with responseType := some "arraybuffer" }
  else config

/-- `buildRequestConfig` (source lines 73-155): the full transport
descriptor builder. `fs`/`cwd` model the filesystem, `boundary` the
multipart boundary freshly generated by `new FormData()`. -/
def buildRequestConfig (params : RequestSpec) (fs : FS) (cwd : String)
    (boundary : String) : Except JsError AxiosConfig :=
  (encodeBody params fs cwd boundary (preBodyConfig params)).map
    fun c => applySave params (applyAuth params c)

/-- Outcome of one invocation of a request executor (resolve / reject). -/
inductive ReqOutcome (T : Type) where
  | ok (t : T)
  | err (e : JsError)

/-- Observable behavior of `retryRequest`: final result, number of
invocations of the executor, and the backoff delays computed (in order)
before each retried attempt. -/
structure RetryResult (T : Type) where
  result : Except JsError T
  calls : Nat
  delays : List Nat

/-- The terminal-client-error test of `retryRequest` (source line 194):
an axios error whose attached response has a truthy status in [400,500). -/
def is4xxTerminal (e : JsError) : Bool :=
  e.isAxiosError &&
    (match e.response with
     | some r => r.status != 0 && decide (400 ≤ r.status) && decide (r.status < 500)
     | Option.none => false)

/-- The retry loop of `retryRequest` (source lines 189-203); `attempt` is
the current loop index and `remaining = maxRetries - attempt`. -/
def retryAux {T : Type} (f : Nat → ReqOutcome T) (baseDelay attempt remaining : Nat) :
    RetryResult T :=
  match f attempt with
  | .ok t => ⟨.ok t, 1, []⟩
  | .err e =>
    if is4xxTerminal e then ⟨.error e, 1, []⟩
    else
      match remaining with
      | 0 => ⟨.error e, 1, []⟩
      | r + 1 =>
        let rest := retryAux f baseDelay (attempt + 1) r
        ⟨rest.result, rest.calls + 1, baseDelay * 2 ^ attempt :: rest.delays⟩

/-- `retryRequest` (source lines 183-205): the executor is modelled as a
function from the invocation index to that invocation's outcome. -/
def retryRequest {T : Type} (f : Nat → ReqOutcome T) (maxRetries : Nat := 3)
    (baseDelay : Nat := 1000) : RetryResult T :=
  retryAux f baseDelay 0 maxRetries

/-- A header map as a JSON value. -/
def headersToJ (hs : List (String × String)) : JValue :=
  .obj (hs.map fun kv => (kv.1, .str kv.2))

/-- A response body as it appears inside a JSON-stringified envelope. -/
def respDataToJ : RespData → JValue
  | .jval v => v
  | .bytes bs =>
    .obj [("type", .str "Buffer"), ("data", .arr (bs.map fun n => .num (Int.ofNat n)))]

/-- `formatResponse` (source lines 157-164). -/
def formatResponse (r : Response) : JValue :=
  .obj [("status", .num (Int.ofNat r.status)), ("statusText", .str r.statusText),
        ("headers", headersToJ r.headers), ("data", respDataToJ r.data)]

/-- `formatError` (source lines 166-181); fields sourced from an absent
response are `undefined` and hence dropped by `JSON.stringify`. -/
def formatError (e : JsError) : JValue :=
  if e.isAxiosError then
    .obj (("error", JValue.bool true) :: ("message", JValue.str e.message) ::
      (match e.response with
       | some r =>
         [("status", JValue.num (Int.ofNat r.status)),
          ("statusText", JValue.str r.statusText),
          ("headers", headersToJ r.headers), ("data", respDataToJ r.data)]
       | Option.none => []))
  else
    .obj [("error", JValue.bool true),
          ("message", JValue.str
            (if e.message = "" then "Unknown error occurred" else e.message))]

/-- A validated `rest_api_graphql` argument bag
(source: `GraphQLRequestSchema`), with the zod defaults applied. -/
structure GraphQLSpec where
  url : String
  query : String
  «variables» : Option (List (String × JValue)) := Option.none
  operationName : Option String := Option.none
  httpMethod : String := "POST"
  headers : Option (List (String × String)) := Option.none
  queryParams : Option (List (String × JValue)) := Option.none
  timeout : Int := 30000
  authType : AuthType := AuthType.none
  apiKey : Option String := Option.none
  apiKeyHeader : String := "X-API-Key"
  bearerToken : Option String := Option.none
  username : Option String := Option.none
  password : Option String := Option.none

/-- The auth switch of the GraphQL handler (source lines 291-301 and
321-331; textually the same switch as in `buildRequestConfig`). -/
def applyAuthG (g : GraphQLSpec) (config : AxiosConfig) : AxiosConfig :=
  match g.authType with
  | AuthType.apiKey =>
    if truthyStr g.apiKey then
      { config with headers := (assocInsert config.headers
          (if g.apiKeyHeader = "" then "X-API-Key" else g.apiKeyHeader)
          (g.apiKey.getD "")) }
    else config
  | AuthType.bearer =>
    if truthyStr g.bearerToken then
      { config with headers := (assocInsert config.headers "Authorization"
          ("Bearer " ++ g.bearerToken.getD "")) }
    else config
  | AuthType.basic =>
    if truthyStr g.username && truthyStr g.password then
      { config with auth := some (g.username.getD "", g.password.getD "") }
    else config
  | AuthType.none => config

/-- `(httpMethod || "POST").toUpperCase()` (source line 276). -/
def gqlMethod (g : GraphQLSpec) : String :=
  String.mk ((if g.httpMethod = "" then "POST" else g.httpMethod).toList.map Char.toUpper)

/-- The combined query parameters of a GraphQL GET request
(source lines 278-283). -/
def gqlCombinedQueryParams (g : GraphQLSpec) : List (String × JValue) :=
  let base := assocInsert (g.queryParams.getD []) "query" (.str g.query)
  let base2 :=
    match g.«variables» with
    | some vs => assocInsert base "variables" (.str (jsonStringify (.obj vs)))
    | Option.none => base
  match g.operationName with
  | some op => if op = "" then base2 else assocInsert base2 "operationName" (.str op)
  | Option.none => base2

/-- The transport descriptor of the GraphQL GET branch
(source lines 284-301). -/
def buildGraphQLGetConfig (g : GraphQLSpec) : AxiosConfig :=
  applyAuthG g
    { method := "GET"
      url := g.url
      params := some (gqlCombinedQueryParams g)
      timeout := g.timeout
      headers := assocMerge [("Accept", "*/*")] (g.headers.getD []) }

/-- The JSON request body of the GraphQL POST branch
(source lines 310-312). -/
def gqlRequestBody (g : GraphQLSpec) : List (String × JValue) :=
  let b := [("query", JValue.str g.query)]
  let b2 :=
    match g.«variables» with
    | some vs => assocInsert b "variables" (.obj vs)
    | Option.none => b
  match g.operationName with
  | some op => if op = "" then b2 else assocInsert b2 "operationName" (.str op)
  | Option.none => b2

/-- The transport descriptor of the GraphQL POST branch
(source lines 313-331). -/
def buildGraphQLPostConfig (g : GraphQLSpec) : AxiosConfig :=
  applyAuthG g
    { method := "POST"
      url := g.url
      data := some (.raw (.obj (gqlRequestBody g)))
      params := g.queryParams
      timeout := g.timeout
      headers := assocMerge [("Content-Type", "application/json"), ("Accept", "*/*")]
        (g.headers.getD []) }

/-- The `text` of one returned content item: a JSON-stringified envelope or
a plain message. -/
inductive ToolText where
  | jsonOf (v : JValue)
  | plain (s : String)

/-- The result of one tool call: the content text plus the `isError` flag. -/
structure ToolResult where
  text : ToolText
  isError : Bool

/-- A caught error converted to a failure result. -/
def errResult (e : JsError) : ToolResult := ⟨.jsonOf (formatError e), true⟩

/-- `writeFileSync(savePath, response.data)`: accepts raw bytes or a
string (written as UTF-8); anything else throws. -/
def writeData : RespData → Except JsError (List Nat)
  | .bytes bs => .ok bs
  | .jval (JValue.str s) => .ok (utf8Bytes s)
  | .jval _ =>
    .error (typeError "The data argument must be of type string or an instance of Buffer")

/-- `size: response.data.length` — `undefined` (dropped from the JSON
envelope) when the data has no `length` property. -/
def sizeFields : RespData → List (String × JValue)
  | .bytes bs => [("size", JValue.num (Int.ofNat bs.length))]
  | .jval (JValue.str s) => [("size", JValue.num (Int.ofNat s.length))]
  | .jval (JValue.arr xs) => [("size", JValue.num (Int.ofNat xs.length))]
  | .jval _ => []

/-- The `rest_api_request` branch of the call handler (source lines
246-272), with the surrounding try/catch folded in: a thrown build or
transport error becomes a `formatError` envelope. Returns the tool result
and the resulting filesystem. -/
def handleRest (params : RequestSpec)
    (transport : AxiosConfig → Nat → ReqOutcome Response)
    (fs : FS) (cwd : String) (boundary : String) : ToolResult × FS :=
  match buildRequestConfig params fs cwd boundary with
  | .error e => (errResult e, fs)
  | .ok config =>
    match (retryRequest fun n => transport config n).result with
    | .error e => (errResult e, fs)
    | .ok response =>
      if truthyStr params.saveResponseTo then
        let savePath := resolvePath cwd (params.saveResponseTo.getD "")
        match writeData response.data with
        | .error e => (errResult e, fs)
        | .ok bs =>
          (⟨.jsonOf (.obj ([("status", JValue.num (Int.ofNat response.status)),
                            ("statusText", JValue.str response.statusText),
                            ("headers", headersToJ response.headers),
                            ("savedTo", JValue.str savePath)] ++
                           sizeFields response.data)), false⟩,
           fsWrite fs savePath bs)
      else (⟨.jsonOf (formatResponse response), false⟩, fs)

/-- The `rest_api_graphql` branch of the call handler
(source lines 273-340). -/
def handleGraphQL (g : GraphQLSpec)
    (transport : AxiosConfig → Nat → ReqOutcome Response) : ToolResult :=
  let config :=
    if gqlMethod g = "GET" then buildGraphQLGetConfig g else buildGraphQLPostConfig g
  match (retryRequest fun n => transport config n).result with
  | .error e => errResult e
  | .ok r => ⟨.jsonOf (formatResponse r), false⟩

/-- The `CallToolRequestSchema` handler (source lines 242-359). Validation
is the zod `parse` call, modelled as a parameter: its typed result or the
`ZodError` it throws into the surrounding catch. -/
def handleCallTool (name : String)
    (restArgs : Except JsError RequestSpec)
    (gqlArgs : Except JsError GraphQLSpec)
    (transport : AxiosConfig → Nat → ReqOutcome Response)
    (fs : FS) (cwd : String) (boundary : String) : ToolResult × FS :=
  if name = "rest_api_request" then
    match restArgs with
    | .error e => (errResult e, fs)
    | .ok params => handleRest params transport fs cwd boundary
  else if name = "rest_api_graphql" then
    match gqlArgs with
    | .error e => (errResult e, fs)
    | .ok g => (handleGraphQL g transport, fs)
  else (⟨.plain ("Unknown tool: " ++ name), true⟩, fs)

/-! ### Derived predicates and concrete instances used by the verification -/

/-- Is `body.files` a truthy array? (the multipart test of
`detectContentType` restricted to an object body). -/
def filesIsArray (fields : List (String × JValue)) : Bool :=
  match alookup fields "files" with
  | some (JValue.arr _) => true
  | _ => false

/-- The form-urlencoded heuristic of `detectContentType` on an object body:
all values scalar and some key underscored or equal to `grant_type`. -/
def formHeuristic (fields : List (String × JValue)) : Bool :=
  (fields.map Prod.snd).all JValue.isScalar &&
    (fields.map Prod.fst).any fun k => k.toList.contains '_' || k == "grant_type"

/-- Does `buildRequestConfig` reach the multipart-encoding branch (the only
place the generated boundary and the filesystem are used)? -/
def takesMultipartBranch (params : RequestSpec) : Bool :=
  match params.body with
  | Option.none => false
  | some body =>
    (resolvedContentType params == some "multipart/form-data") && body.isObjLike &&
      !body.isNull && JValue.truthyOpt (body.getProp "files")

/-- Does the returned content carry a JSON envelope with a `data` field? -/
def envHasData (t : ToolResult) : Bool :=
  match t.text with
  | .jsonOf v => (v.getProp "data").isSome
  | _ => false

/-- Does the returned content carry a JSON envelope with `error: true`? -/
def envErrorTrue (t : ToolResult) : Bool :=
  match t.text with
  | .jsonOf v =>
    match v.getProp "error" with
    | some (JValue.bool true) => true
    | _ => false
  | _ => false

/-- The claimed envelope dichotomy: exactly one of a `data` field and
`error: true` is present in the returned envelope. -/
def claimedEnvelopeShape (t : ToolResult) : Bool :=
  envHasData t != envErrorTrue t

/-- A success envelope: has `data` and no `error` field. -/
def isSuccessEnvelope (t : ToolResult) : Bool :=
  match t.text with
  | .jsonOf v => (v.getProp "data").isSome && (v.getProp "error").isNone
  | _ => false

/-- A saved-response success envelope: has `savedTo`, no `data`, no `error`. -/
def isSavedEnvelope (t : ToolResult) : Bool :=
  match t.text with
  | .jsonOf v => (v.getProp "savedTo").isSome && (v.getProp "data").isNone &&
      (v.getProp "error").isNone
  | _ => false

/-- A failure envelope: `error: true`, flagged `isError`. -/
def isFailureEnvelope (t : ToolResult) : Bool :=
  (match t.text with
   | .jsonOf v =>
     match v.getProp "error" with
     | some (JValue.bool true) => true
     | _ => false
   | _ => false) && t.isError

/-- The unknown-tool reply: a plain (non-JSON) text flagged `isError`. -/
def isUnknownToolText (t : ToolResult) : Bool :=
  match t.text with
  | .plain _ => t.isError
  | _ => false

/-- The four result classes the call handler can actually produce. -/
def envClass (t : ToolResult) : Bool :=
  isSuccessEnvelope t || isSavedEnvelope t || isFailureEnvelope t ||
    isUnknownToolText t

/-- A transient (non-axios) network failure. -/
def transientErr : JsError := { message := "socket hang up" }

/-- An axios error carrying a 404 response. -/
def err404 : JsError :=
  { isAxiosError := true
    message := "Request failed with status code 404"
    response := some { status := 404, statusText := "Not Found", headers := [],
                       data := .jval .null } }

/-- A spec whose caller-supplied `Authorization` header competes with
bearer-auth injection. -/
def c1spec : RequestSpec :=
  { url := "https://api.test/x", authType := AuthType.bearer
    bearerToken := some "tok"
    headers := some [("Authorization", "custom")] }

/-- A spec with a neutral caller header plus a caller `Content-Type`,
a JSON body and bearer auth. -/
def c1wspec : RequestSpec :=
  { url := "https://api.test/x", authType := AuthType.bearer
    bearerToken := some "tok"
    body := some (.obj [("a", .num 1)])
    headers := some [("X-Trace", "1"), ("Content-Type", "text/plain")] }

/-- The transport descriptor `buildRequestConfig` produces for `c1wspec`. -/
def c1wcfg : AxiosConfig :=
  { method := "GET", url := "https://api.test/x", timeout := 30000
    headers := [("X-Trace", "1"), ("Content-Type", "application/json"),
                ("Accept", "*/*"), ("Authorization", "Bearer tok")]
    data := some (.raw (.obj [("a", .num 1)])) }

/-- A download request: JSON body, response saved to disk. -/
def c6spec : RequestSpec :=
  { url := "https://api.test/img", method := "POST"
    body := some (.obj [("prompt", .str "cat")])
    saveResponseTo := some "/out/img.png" }

/-- A successful binary response of two bytes. -/
def c6resp : Response :=
  { status := 200, statusText := "OK", headers := [("content-type", "image/png")]
    data := .bytes [137, 80] }

/-- A transport that always succeeds with `c6resp`. -/
def c6transport : AxiosConfig → Nat → ReqOutcome Response := fun _ _ => .ok c6resp

/-- The transport descriptor `buildRequestConfig` produces for `c6spec`. -/
def c6cfg : AxiosConfig :=
  { method := "POST", url := "https://api.test/img", timeout := 30000
    headers := [("Accept", "*/*"), ("Content-Type", "application/json")]
    data := some (.raw (.obj [("prompt", .str "cat")]))
    responseType := some "arraybuffer" }

/-- A multipart upload spec (body carries a `files` array). -/
def c7spec : RequestSpec :=
  { url := "https://api.test/upload"
    method := "POST"
    body := some (.obj [("files", .arr [.obj [("path", .str "/f.txt")]])]) }

/-- The filesystem backing `c7spec`: the uploaded file's two bytes. -/
def c7fs : FS := [("/f.txt", [104, 105])]

/-- A plain JSON-body spec (no multipart). -/
def c7aspec : RequestSpec :=
  { url := "https://api.test/a", body := some (.obj [("a", .str "b")]) }

/-- A GraphQL GET call with variables, an operation name, and a caller
`query` query-parameter. -/
def gqlGetSpec : GraphQLSpec :=
  { url := "https://api.test/gql", query := "q1", httpMethod := "GET"
    «variables» := some [("a", .num 1)], operationName := some "Q"
    queryParams := some [("query", .str "evil")] }

/-- A GraphQL POST call with variables. -/
def gqlPostSpec : GraphQLSpec :=
  { url := "https://api.test/gql", query := "q2"
    «variables» := some [("a", .num 1)] }

/-- A GraphQL GET call whose caller query parameters collide with all three
reserved names. -/
def c10spec : GraphQLSpec :=
  { url := "https://api.test/gql", query := "\x7b a \x7d", httpMethod := "GET"
    queryParams := some [("query", .str "evil"), ("variables", .str "evil2"),
                         ("operationName", .str "evil3")]
    «variables» := some [("v", .num 2)]
    operationName := some "Op" }

/-- A bearer-auth spec with no competing caller headers. -/
def c9spec : RequestSpec :=
  { url := "https://api.test/x", authType := AuthType.bearer, bearerToken := some "tok" }

/-- An in-progress descriptor for the auth injector. -/
def c9config : AxiosConfig :=
  { method := "GET", url := "https://api.test/x", timeout := 30000
    headers := [("Accept", "*/*")] }

/-! ### Helper lemmas -/

theorem alookup_assocInsert {α : Type} (fs : List (String × α)) (k k' : String) (v : α) :
    alookup (assocInsert fs k v) k' = if k = k' then some v else alookup fs k' := by
  induction fs with
  | nil => simp [assocInsert, alookup]
  | cons hd tl ih =>
    obtain ⟨k0, v0⟩ := hd
    by_cases h0 : k0 = k
    · subst h0
      by_cases h1 : k0 = k' <;> simp [assocInsert, alookup, h1]
    · by_cases h1 : k0 = k' <;> by_cases h2 : k = k' <;>
        simp_all [assocInsert, alookup]

theorem except_map_ok {ε α β : Type} (f : α → β) (x : Except ε α) (y : β)
    (h : x.map f = .ok y) : ∃ a, x = .ok a ∧ y = f a := by
  cases x with
  | error e => simp [Except.map] at h
  | ok a =>
    simp [Except.map] at h
    exact ⟨a, rfl, h.symm⟩

theorem detectContentType_obj (fields : List (String × JValue)) :
    detectContentType (.obj fields) =
      (if filesIsArray fields then some "multipart/form-data"
       else if formHeuristic fields then some "application/x-www-form-urlencoded"
       else some "application/json") := by
  unfold detectContentType filesIsArray formHeuristic
  cases hl : alookup fields "files" with
  | none => simp [JValue.getProp, hl, JValue.truthy, JValue.truthyOpt, JValue.isObjLike]
  | some v =>
    cases v <;>
      simp [JValue.getProp, hl, JValue.truthy, JValue.truthyOpt, JValue.isObjLike]

theorem applySave_headers (params : RequestSpec) (c : AxiosConfig) :
    (applySave params c).headers = c.headers := by
  unfold applySave
  split <;> rfl

theorem applyAuth_frame (params : RequestSpec) (config : AxiosConfig) :
    (applyAuth params config).method = config.method ∧
    (applyAuth params config).url = config.url ∧
    (applyAuth params config).timeout = config.timeout ∧
    (applyAuth params config).params = config.params ∧
    (applyAuth params config).data = config.data ∧
    (applyAuth params config).responseType = config.responseType := by
  unfold applyAuth
  cases params.authType
  · exact ⟨rfl, rfl, rfl, rfl, rfl, rfl⟩
  · cases h : truthyStr params.apiKey <;> simp [h]
  · cases h : truthyStr params.bearerToken <;> simp [h]
  · cases h : (truthyStr params.username && truthyStr params.password) <;> simp [h]

theorem applyAuthG_frame (g : GraphQLSpec) (config : AxiosConfig) :
    (applyAuthG g config).method = config.method ∧
    (applyAuthG g config).url = config.url ∧
    (applyAuthG g config).params = config.params ∧
    (applyAuthG g config).data = config.data := by
  unfold applyAuthG
  cases g.authType
  · exact ⟨rfl, rfl, rfl, rfl⟩
  · cases h : truthyStr g.apiKey <;> simp [h]
  · cases h : truthyStr g.bearerToken <;> simp [h]
  · cases h : (truthyStr g.username && truthyStr g.password) <;> simp [h]

theorem preBodyConfig_headers_lookup (params : RequestSpec)
    (hs : List (String × String)) (k v : String)
    (hh : params.headers = some hs) (hkv : alookup hs k = some v)
    (hAcc : ¬(k = "Accept" ∧ v = "")) :
    alookup (preBodyConfig params).headers k = some v := by
  unfold preBodyConfig
  rw [hh]
  cases ht : truthyStr (alookup hs "Accept") with
  | true =>
    simp only [Option.getD, ht, if_true]
    exact hkv
  | false =>
    simp only [Option.getD, ht, Bool.false_eq_true, if_false]
    rw [alookup_assocInsert]
    by_cases hk : "Accept" = k
    · subst hk
      rw [hkv] at ht
      simp [truthyStr] at ht
      exact absurd ⟨rfl, ht⟩ hAcc
    · simp [hk, hkv]

theorem encodeNonMultipart_headers_lookup (body : JValue) (ct : Option String)
    (c c' : AxiosConfig) (k : String)
    (he : encodeNonMultipart body ct c = .ok c') (hk : k ≠ "Content-Type") :
    alookup c'.headers k = alookup c.headers k := by
  unfold encodeNonMultipart at he
  split at he
  · split at he
    · simp at he
    · injection he with he2
      subst he2
      rw [alookup_assocInsert]
      simp [Ne.symm hk]
  · injection he with he2
    subst he2
    rw [alookup_assocInsert]
    simp [Ne.symm hk]

theorem encodeMultipart_headers_lookup (fs : FS) (cwd boundary : String)
    (body : JValue) (c c' : AxiosConfig) (k : String)
    (he : encodeMultipart fs cwd boundary body c = .ok c')
    (hk : k ≠ "content-type") :
    alookup c'.headers k = alookup c.headers k := by
  unfold encodeMultipart at he
  split at he
  · simp only [Bind.bind, Except.bind] at he
    split at he
    · simp at he
    · injection he with he2
      subst he2
      rw [alookup_assocInsert]
      simp [Ne.symm hk]
  · simp at he

theorem applyAuth_headers_lookup (params : RequestSpec) (c : AxiosConfig) (k : String)
    (hbr : ¬(k = "Authorization" ∧ params.authType = AuthType.bearer ∧
             truthyStr params.bearerToken = true))
    (hak : ¬(k = (if params.apiKeyHeader = "" then "X-API-Key" else params.apiKeyHeader) ∧
             params.authType = AuthType.apiKey ∧ truthyStr params.apiKey = true)) :
    alookup (applyAuth params c).headers k = alookup c.headers k := by
  unfold applyAuth
  cases hat : params.authType
  case none => rfl
  case apiKey =>
    cases ht : truthyStr params.apiKey with
    | false => simp [ht]
    | true =>
      have hne : ¬((if params.apiKeyHeader = "" then "X-API-Key"
          else params.apiKeyHeader) = k) :=
        fun h => hak ⟨h.symm, hat, ht⟩
      simp [ht, alookup_assocInsert, hne]
  case bearer =>
    cases ht : truthyStr params.bearerToken with
    | false => simp [ht]
    | true =>
      have hne : ¬("Authorization" = k) := fun h => hbr ⟨h.symm, hat, ht⟩
      simp [ht, alookup_assocInsert, hne]
  case basic =>
    cases ht : (truthyStr params.username && truthyStr params.password) with
    | false => simp [ht]
    | true => simp [ht]

theorem encodeBody_headers_lookup
    (params : RequestSpec) (fs : FS) (cwd boundary : String)
    (c c' : AxiosConfig) (k : String)
    (he : encodeBody params fs cwd boundary c = .ok c')
    (hCT : ¬(k = "Content-Type" ∧ params.body ≠ Option.none ∧
             takesMultipartBranch params = false))
    (hctl : ¬(k = "content-type" ∧ takesMultipartBranch params = true)) :
    alookup c'.headers k = alookup c.headers k := by
  unfold encodeBody at he
  cases hb : params.body with
  | none =>
    rw [hb] at he
    injection he with he2
    subst he2
    rfl
  | some body =>
    rw [hb] at he
    dsimp only at he
    have htb : takesMultipartBranch params =
        ((resolvedContentType params == some "multipart/form-data") && body.isObjLike &&
          !body.isNull && JValue.truthyOpt (body.getProp "files")) := by
      unfold takesMultipartBranch
      rw [hb]
    cases hc : (resolvedContentType params == some "multipart/form-data" &&
        body.isObjLike) with
    | false =>
      simp only [hc, Bool.false_eq_true, if_false] at he
      have hk : k ≠ "Content-Type" := by
        intro hkk
        exact hCT ⟨hkk, by simp [hb], by rw [htb]; simp [hc]⟩
      exact encodeNonMultipart_headers_lookup body _ c c' k he hk
    | true =>
      simp only [hc, if_true] at he
      cases hn : body.isNull with
      | true => simp [hn] at he
      | false =>
        simp only [hn, Bool.false_eq_true, if_false] at he
        cases hf : JValue.truthyOpt (body.getProp "files") with
        | true =>
          simp only [hf, if_true] at he
          have hkl : k ≠ "content-type" := by
            intro hkk
            exact hctl ⟨hkk, by rw [htb]; simp [hc, hn, hf]⟩
          exact encodeMultipart_headers_lookup fs cwd boundary body c c' k he hkl
        | false =>
          simp only [hf, Bool.false_eq_true, if_false] at he
          have hk : k ≠ "Content-Type" := by
            intro hkk
            exact hCT ⟨hkk, by simp [hb], by rw [htb]; simp [hf]⟩
          exact encodeNonMultipart_headers_lookup body _ c c' k he hk

theorem encodeBody_boundary_eq (params : RequestSpec) (fs : FS) (cwd b1 b2 : String)
    (config : AxiosConfig) (h : takesMultipartBranch params = false) :
    encodeBody params fs cwd b1 config = encodeBody params fs cwd b2 config := by
  unfold encodeBody
  cases hb : params.body with
  | none => rfl
  | some body =>
    unfold takesMultipartBranch at h
    rw [hb] at h
    cases hc : (resolvedContentType params == some "multipart/form-data" &&
        body.isObjLike) with
    | false => simp [hc]
    | true =>
      cases body <;> simp_all [JValue.isNull]

theorem gqlCombined_query (g : GraphQLSpec) :
    alookup (gqlCombinedQueryParams g) "query" = some (.str g.query) := by
  unfold gqlCombinedQueryParams
  cases g.«variables» <;> cases ho : g.operationName <;>
    simp [alookup_assocInsert]
  · split <;> simp [alookup_assocInsert]
  · split <;> simp [alookup_assocInsert]

theorem gqlCombined_variables (g : GraphQLSpec) (vs : List (String × JValue))
    (hv : g.«variables» = some vs) :
    alookup (gqlCombinedQueryParams g) "variables" =
      some (.str (jsonStringify (.obj vs))) := by
  unfold gqlCombinedQueryParams
  rw [hv]
  cases ho : g.operationName <;> simp [alookup_assocInsert]
  split <;> simp [alookup_assocInsert]

theorem gqlCombined_operationName (g : GraphQLSpec) (op : String)
    (hop : g.operationName = some op) (hne : op ≠ "") :
    alookup (gqlCombinedQueryParams g) "operationName" = some (.str op) := by
  unfold gqlCombinedQueryParams
  rw [hop]
  simp [hne, alookup_assocInsert]

theorem gqlRequestBody_shape (g : GraphQLSpec) :
    gqlRequestBody g =
      [("query", JValue.str g.query)] ++
      (match g.«variables» with
       | some vs => [("variables", JValue.obj vs)]
       | Option.none => []) ++
      (match g.operationName with
       | some op => if op = "" then [] else [("operationName", JValue.str op)]
       | Option.none => []) := by
  unfold gqlRequestBody
  cases g.«variables» <;> cases g.operationName <;> simp [assocInsert]
  · split <;> simp [assocInsert]
  · split <;> simp [assocInsert]

theorem errResult_isFailure (e : JsError) : isFailureEnvelope (errResult e) = true := by
  unfold errResult isFailureEnvelope formatError
  cases hax : e.isAxiosError <;> rfl

theorem formatResponse_success (r : Response) :
    isSuccessEnvelope ⟨.jsonOf (formatResponse r), false⟩ = true := rfl

theorem savedEnvelope_class (v1 v2 v3 : JValue) (sp : String) (d : RespData) :
    isSavedEnvelope ⟨.jsonOf (.obj (("status", v1) :: ("statusText", v2) ::
      ("headers", v3) :: ("savedTo", JValue.str sp) :: sizeFields d)), false⟩ = true := by
  cases d with
  | bytes bs => rfl
  | jval v => cases v <;> rfl

theorem handleRest_class (params : RequestSpec)
    (transport : AxiosConfig → Nat → ReqOutcome Response)
    (fs : FS) (cwd boundary : String) :
    envClass (handleRest params transport fs cwd boundary).1 = true := by
  unfold handleRest
  split
  · simp [envClass, errResult_isFailure]
  · split
    · simp [envClass, errResult_isFailure]
    · split
      · split
        · simp [envClass, errResult_isFailure]
        · simp [envClass, savedEnvelope_class]
      · simp [envClass, formatResponse_success]

theorem handleGraphQL_class (g : GraphQLSpec)
    (transport : AxiosConfig → Nat → ReqOutcome Response) :
    envClass (handleGraphQL g transport) = true := by
  unfold handleGraphQL
  split <;> (dsimp only; split <;>
    simp [envClass, errResult_isFailure, formatResponse_success])

/-! ### Claim theorems -/

/-- C1 (counterexample): the explicit-wins invariant fails outside the
multipart exception: for `c1spec` the caller supplies
`Authorization: custom`, the body is absent (so no multipart boundary is
involved), yet the built descriptor's `Authorization` header is
`Bearer tok`, not the caller's value. -/
theorem caller_header_not_always_preserved :
    c1spec.headers = some [("Authorization", "custom")] ∧
    c1spec.body = Option.none ∧
    (buildRequestConfig c1spec [] "/w" "B").toOption.map
      (fun c => alookup c.headers "Authorization") = some (some "Bearer tok") ∧
    ("Bearer tok" : String) ≠ "custom" :=
  ⟨rfl, rfl, rfl, by decide⟩

/-- C1 (amended): every caller-supplied header key keeps its caller-supplied
value in the built Transport Descriptor, except for: the `Accept` header
when supplied empty (the `*/*` default overwrites it); the `Content-Type`
header whenever a body is present and the multipart branch is not taken
(the JSON/urlencoded encoders overwrite it); the lowercase `content-type`
header when the multipart branch is taken (the boundary header wins); the
`Authorization` header under bearer auth with a truthy token; and the
api-key header name under api-key auth with a truthy key. -/
theorem caller_headers_survive_with_exceptions
    (params : RequestSpec) (fs : FS) (cwd boundary : String) (cfg : AxiosConfig)
    (hs : List (String × String)) (k v : String)
    (hh : params.headers = some hs) (hkv : alookup hs k = some v)
    (hb : buildRequestConfig params fs cwd boundary = .ok cfg)
    (e1 : ¬(k = "Accept" ∧ v = ""))
    (e2 : ¬(k = "Content-Type" ∧ params.body ≠ Option.none ∧
            takesMultipartBranch params = false))
    (e3 : ¬(k = "content-type" ∧ takesMultipartBranch params = true))
    (e4 : ¬(k = "Authorization" ∧ params.authType = AuthType.bearer ∧
            truthyStr params.bearerToken = true))
    (e5 : ¬(k = (if params.apiKeyHeader = "" then "X-API-Key" else params.apiKeyHeader) ∧
            params.authType = AuthType.apiKey ∧ truthyStr params.apiKey = true)) :
    alookup cfg.headers k = some v := by
  obtain ⟨c0, hc0, hcfg⟩ := except_map_ok _ _ _ hb
  subst hcfg
  rw [applySave_headers]
  rw [applyAuth_headers_lookup params c0 k e4 e5]
  rw [encodeBody_headers_lookup params fs cwd boundary _ c0 k hc0 e2 e3]
  exact preBodyConfig_headers_lookup params hs k v hh hkv e1

/-- C1 (witness): for `c1wspec` the caller header `X-Trace: 1` survives
into the built descriptor. -/
theorem caller_headers_survive_witness :
    buildRequestConfig c1wspec [] "/w" "B" = .ok c1wcfg ∧
    alookup c1wcfg.headers "X-Trace" = some "1" :=
  ⟨rfl,
   caller_headers_survive_with_exceptions c1wspec [] "/w" "B" c1wcfg
     [("X-Trace", "1"), ("Content-Type", "text/plain")] "X-Trace" "1"
     rfl rfl rfl
     (fun h => absurd h.1 (by decide))
     (fun h => absurd h.1 (by decide))
     (fun h => absurd h.1 (by decide))
     (fun h => absurd h.1 (by decide))
     (fun h => absurd h.1 (by decide))⟩

/-- C2: a request executor that fails on every invocation with a
non-terminal (non-4xx) error is invoked exactly 4 times by `retryRequest`
with the default parameters (maxRetries 3, baseDelay 1000), the final
error is propagated, and the computed backoff delays are
1000, 2000, 4000 milliseconds (baseDelay * 2^n before retry n). -/
theorem retryRequest_transient_exhausts {T : Type}
    (f : Nat → ReqOutcome T) (errOf : Nat → JsError)
    (hf : ∀ n, f n = .err (errOf n))
    (ht : ∀ n, is4xxTerminal (errOf n) = false) :
    retryRequest f = ⟨.error (errOf 3), 4, [1000, 2000, 4000]⟩ := by
  simp [retryRequest, retryAux, hf, ht]

/-- C2 (witness): a concrete always-failing transient executor. -/
theorem retryRequest_transient_exhausts_witness :
    retryRequest (T := Nat) (fun _ => .err transientErr) =
      ⟨.error transientErr, 4, [1000, 2000, 4000]⟩ :=
  retryRequest_transient_exhausts _ (fun _ => transientErr) (fun _ => rfl) (fun _ => rfl)

/-- C3: an executor whose first invocation raises an axios error carrying a
response with status in [400,500) is invoked exactly once by
`retryRequest` (any maxRetries/baseDelay): the error propagates
immediately, with no retry and no computed delay. -/
theorem retryRequest_4xx_no_retry {T : Type} (f : Nat → ReqOutcome T) (e : JsError)
    (r : Response) (maxRetries baseDelay : Nat)
    (hf : f 0 = .err e) (hax : e.isAxiosError = true) (hr : e.response = some r)
    (h4 : 400 ≤ r.status) (h5 : r.status < 500) :
    retryRequest f maxRetries baseDelay = ⟨.error e, 1, []⟩ := by
  have hterm : is4xxTerminal e = true := by
    simp [is4xxTerminal, hax, hr, h4, h5]
    omega
  unfold retryRequest
  rw [retryAux.eq_def, hf]
  simp [hterm]

/-- C3 (witness): a concrete executor raising a 404 on the first call. -/
theorem retryRequest_4xx_no_retry_witness :
    retryRequest (T := Nat) (fun _ => .err err404) 3 1000 = ⟨.error err404, 1, []⟩ :=
  retryRequest_4xx_no_retry _ err404
    { status := 404, statusText := "Not Found", headers := [], data := .jval .null }
    3 1000 rfl rfl rfl (by norm_num) (by norm_num)

/-- C4: `detectContentType` applies the ordered rules, first match wins:
a body whose `files` property is an array resolves to multipart regardless
of other keys; otherwise a flat all-scalar object body with an underscored
key (such as `grant_type`) resolves to form-urlencoded; every other object
body (including arrays) resolves to json. -/
theorem detectContentType_ordered_rules :
    (∀ (fields : List (String × JValue)) (xs : List JValue),
       alookup fields "files" = some (JValue.arr xs) →
       detectContentType (.obj fields) = some "multipart/form-data") ∧
    (∀ (fields : List (String × JValue)),
       (∀ xs, alookup fields "files" ≠ some (JValue.arr xs)) →
       (fields.map Prod.snd).all JValue.isScalar = true →
       (∃ k, k ∈ fields.map Prod.fst ∧ k.toList.contains '_' = true) →
       detectContentType (.obj fields) = some "application/x-www-form-urlencoded") ∧
    (∀ (fields : List (String × JValue)),
       (∀ xs, alookup fields "files" ≠ some (JValue.arr xs)) →
       ¬((fields.map Prod.snd).all JValue.isScalar = true ∧
          ((fields.map Prod.fst).any
            fun k => k.toList.contains '_' || k == "grant_type") = true) →
       detectContentType (.obj fields) = some "application/json") ∧
    (∀ xs : List JValue, detectContentType (.arr xs) = some "application/json") := by
  refine ⟨?_, ?_, ?_, fun _ => rfl⟩
  · intro fields xs h
    have hfa : filesIsArray fields = true := by
      unfold filesIsArray
      rw [h]
    rw [detectContentType_obj, hfa]
    rfl
  · intro fields hno hsc hex
    obtain ⟨k, hk, hu⟩ := hex
    have hfiles : filesIsArray fields = false := by
      unfold filesIsArray
      cases hl : alookup fields "files" with
      | none => rfl
      | some v => cases v <;> first | rfl | exact absurd hl (hno _)
    have hany : ((fields.map Prod.fst).any
        fun k => k.toList.contains '_' || k == "grant_type") = true :=
      List.any_eq_true.mpr ⟨k, hk, by rw [hu]; rfl⟩
    have hform : formHeuristic fields = true := by
      unfold formHeuristic
      rw [hsc, hany]
      rfl
    rw [detectContentType_obj, hfiles, hform]
    rfl
  · intro fields hno hneg
    have hfiles : filesIsArray fields = false := by
      unfold filesIsArray
      cases hl : alookup fields "files" with
      | none => rfl
      | some v => cases v <;> first | rfl | exact absurd hl (hno _)
    have hform : formHeuristic fields = false := by
      unfold formHeuristic
      cases hall : (fields.map Prod.snd).all JValue.isScalar with
      | false => rfl
      | true =>
        cases hany2 : ((fields.map Prod.fst).any
            fun k => k.toList.contains '_' || k == "grant_type") with
        | false => rfl
        | true => exact absurd ⟨hall, hany2⟩ hneg
    rw [detectContentType_obj, hfiles, hform]
    rfl

/-- C4 (witness): one concrete body per rule. -/
theorem detectContentType_ordered_rules_witness :
    detectContentType (.obj [("files", JValue.arr []), ("a_b", .str "x")]) =
      some "multipart/form-data" ∧
    detectContentType (.obj [("grant_type", .str "cc")]) =
      some "application/x-www-form-urlencoded" ∧
    detectContentType (.obj [("a", .obj [])]) = some "application/json" :=
  ⟨detectContentType_ordered_rules.1 _ [] rfl,
   detectContentType_ordered_rules.2.1 _ (fun _ h => Option.noConfusion h) rfl
     ⟨"grant_type", by decide, by decide⟩,
   detectContentType_ordered_rules.2.2.1 _ (fun _ h => Option.noConfusion h) (by decide)⟩

/-- C5 (counterexample): the claimed data-xor-error envelope dichotomy
fails: a call with an unknown tool name returns a plain error text with
neither a `data` field nor `error: true`, and a successful saved-response
call returns an envelope with `savedTo`/`size` but no `data` and no
`error`. -/
theorem envelope_dichotomy_counterexample :
    claimedEnvelopeShape
      (handleCallTool "fetch_url" (.error (typeError "zod"))
        (.error (typeError "zod")) (fun _ _ => .err (typeError "net"))
        [] "/w" "B").1 = false ∧
    claimedEnvelopeShape (handleRest c6spec c6transport [] "/w" "B").1 = false :=
  ⟨rfl, rfl⟩

/-- C5 (amended): every tool call returns one of exactly four result
shapes: a success envelope (`data`, no `error` field), a saved-response
success envelope (`savedTo`, no `data`, no `error`), a failure envelope
(`error: true`, flagged as an error, possibly alongside response-carried
`data`), or — for unknown tool names — a plain error-flagged text. -/
theorem tool_call_envelope_classes (name : String)
    (restArgs : Except JsError RequestSpec) (gqlArgs : Except JsError GraphQLSpec)
    (transport : AxiosConfig → Nat → ReqOutcome Response)
    (fs : FS) (cwd boundary : String) :
    envClass (handleCallTool name restArgs gqlArgs transport fs cwd boundary).1 =
      true := by
  unfold handleCallTool
  by_cases h1 : name = "rest_api_request"
  · rw [if_pos h1]
    cases restArgs with
    | error e => simp [envClass, errResult_isFailure]
    | ok params => exact handleRest_class params transport fs cwd boundary
  · rw [if_neg h1]
    by_cases h2 : name = "rest_api_graphql"
    · rw [if_pos h2]
      cases gqlArgs with
      | error e => simp [envClass, errResult_isFailure]
      | ok g => exact handleGraphQL_class g transport
    · rw [if_neg h2]
      rfl

/-- C6: with a truthy `saveResponseTo`, the built descriptor's response
handling is `arraybuffer` regardless of any declared content type, and on
a successful N-byte binary response the handler returns the
status/statusText/headers/savedTo/size envelope (savedTo the resolved
path, size N) and writes exactly the received bytes at that path,
overwriting any previous file contents. -/
theorem saveResponseTo_binary_persist
    (params : RequestSpec) (transport : AxiosConfig → Nat → ReqOutcome Response)
    (fs : FS) (cwd boundary : String) (p : String) (cfg : AxiosConfig)
    (r : Response) (bs : List Nat)
    (hp : params.saveResponseTo = some p) (hpne : p ≠ "")
    (hb : buildRequestConfig params fs cwd boundary = .ok cfg)
    (hr : (retryRequest fun n => transport cfg n).result = .ok r)
    (hd : r.data = .bytes bs) :
    cfg.responseType = some "arraybuffer" ∧
    handleRest params transport fs cwd boundary =
      (⟨.jsonOf (.obj [("status", .num (Int.ofNat r.status)),
                       ("statusText", .str r.statusText),
                       ("headers", headersToJ r.headers),
                       ("savedTo", .str (resolvePath cwd p)),
                       ("size", .num (Int.ofNat bs.length))]), false⟩,
       fsWrite fs (resolvePath cwd p) bs) ∧
    fsRead (fsWrite fs (resolvePath cwd p) bs) (resolvePath cwd p) = some bs := by
  have htr : truthyStr params.saveResponseTo = true := by simp [truthyStr, hp, hpne]
  refine ⟨?_, ?_, ?_⟩
  · obtain ⟨c0, hc0, hcfg⟩ := except_map_ok _ _ _ hb
    subst hcfg
    have h1 : (applySave params (applyAuth params c0)).responseType =
        some "arraybuffer" := by
      unfold applySave
      rw [htr]
      simp
    exact h1
  · have htr2 : truthyStr (some p) = true := by simp [truthyStr, hpne]
    unfold handleRest
    simp [hb, hr, htr2, hp, hd, writeData, sizeFields]
  · simp [fsRead, fsWrite, alookup_assocInsert]

/-- C6 (witness): a concrete download call saving two bytes. -/
theorem saveResponseTo_binary_persist_witness :
    buildRequestConfig c6spec [] "/w" "B" = .ok c6cfg ∧
    c6cfg.responseType = some "arraybuffer" ∧
    handleRest c6spec c6transport [] "/w" "B" =
      (⟨.jsonOf (.obj [("status", .num 200), ("statusText", .str "OK"),
                       ("headers", .obj [("content-type", .str "image/png")]),
                       ("savedTo", .str "/out/img.png"),
                       ("size", .num 2)]), false⟩,
       [("/out/img.png", [137, 80])]) :=
  ⟨rfl,
   (saveResponseTo_binary_persist c6spec c6transport [] "/w" "B" "/out/img.png"
     c6cfg c6resp [137, 80] rfl (by decide) rfl rfl rfl).1,
   (saveResponseTo_binary_persist c6spec c6transport [] "/w" "B" "/out/img.png"
     c6cfg c6resp [137, 80] rfl (by decide) rfl rfl rfl).2.1⟩

/-- C7 (counterexample): building the same multipart Request Specification
twice is not byte-identical: two runs of the boundary generator (here two
of its possible outputs) yield descriptors whose headers differ in the
multipart boundary. -/
theorem multipart_encoding_not_reproducible :
    buildRequestConfig c7spec c7fs "/w"
        "--------------------------000000000000000000000000" ≠
      buildRequestConfig c7spec c7fs "/w"
        "--------------------------111111111111111111111111" := by
  intro h
  have h2 := congrArg (fun r => r.toOption.map fun c => c.headers) h
  exact absurd h2 (by decide)

/-- C7 (amended): building the same Request Specification twice yields
identical Transport Descriptors (given identical file contents) whenever
the multipart branch is not taken; a multipart build depends on the
freshly generated random boundary, so two builds coincide only when the
two generated boundaries coincide. -/
theorem buildRequestConfig_boundary_independent
    (params : RequestSpec) (fs : FS) (cwd b1 b2 : String)
    (h : takesMultipartBranch params = false) :
    buildRequestConfig params fs cwd b1 = buildRequestConfig params fs cwd b2 := by
  unfold buildRequestConfig
  rw [encodeBody_boundary_eq params fs cwd b1 b2 _ h]

/-- C7 (witness): a non-multipart spec builds identically under two
different boundaries. -/
theorem buildRequestConfig_boundary_independent_witness :
    takesMultipartBranch c7aspec = false ∧
    buildRequestConfig c7aspec [] "/w" "BOUNDARY1" =
      buildRequestConfig c7aspec [] "/w" "BOUNDARY2" :=
  ⟨by decide, buildRequestConfig_boundary_independent c7aspec [] "/w" _ _ (by decide)⟩

/-- C8: for a GraphQL call with resolved method GET, the outbound config is
a GET whose query parameters map `query` to the query string,
`variables` to the JSON-stringified variables when given, and
`operationName` when given (truthy); with resolved method POST (the
default) the outbound config is a POST whose JSON body is exactly
`query` plus `variables` and `operationName` when given. -/
theorem graphql_request_wire_shape (g : GraphQLSpec) :
    (gqlMethod g = "GET" →
      (buildGraphQLGetConfig g).method = "GET" ∧
      (buildGraphQLGetConfig g).params = some (gqlCombinedQueryParams g) ∧
      alookup (gqlCombinedQueryParams g) "query" = some (.str g.query) ∧
      (∀ vs, g.«variables» = some vs →
        alookup (gqlCombinedQueryParams g) "variables" =
          some (.str (jsonStringify (.obj vs)))) ∧
      (∀ op, g.operationName = some op → op ≠ "" →
        alookup (gqlCombinedQueryParams g) "operationName" = some (.str op))) ∧
    (gqlMethod g = "POST" →
      (buildGraphQLPostConfig g).method = "POST" ∧
      (buildGraphQLPostConfig g).data = some (.raw (.obj (
        [("query", JValue.str g.query)] ++
        (match g.«variables» with
         | some vs => [("variables", JValue.obj vs)]
         | Option.none => []) ++
        (match g.operationName with
         | some op => if op = "" then [] else [("operationName", JValue.str op)]
         | Option.none => []))))) := by
  constructor
  · intro _
    exact ⟨(applyAuthG_frame g _).1, (applyAuthG_frame g _).2.2.1,
      gqlCombined_query g, fun vs hv => gqlCombined_variables g vs hv,
      fun op hop hne => gqlCombined_operationName g op hop hne⟩
  · intro _
    refine ⟨(applyAuthG_frame g _).1, ?_⟩
    have hd : (buildGraphQLPostConfig g).data =
        some (.raw (.obj (gqlRequestBody g))) := (applyAuthG_frame g _).2.2.2
    rw [hd, gqlRequestBody_shape]

/-- C8 (witness): a concrete GET call and a concrete POST call. -/
theorem graphql_request_wire_shape_witness :
    gqlMethod gqlGetSpec = "GET" ∧
    alookup (gqlCombinedQueryParams gqlGetSpec) "query" = some (.str "q1") ∧
    alookup (gqlCombinedQueryParams gqlGetSpec) "variables" =
      some (.str "\x7b\"a\":1\x7d") ∧
    gqlMethod gqlPostSpec = "POST" ∧
    (buildGraphQLPostConfig gqlPostSpec).data =
      some (.raw (.obj [("query", .str "q2"), ("variables", .obj [("a", .num 1)])])) :=
  ⟨rfl,
   ((graphql_request_wire_shape gqlGetSpec).1 rfl).2.2.1,
   ((graphql_request_wire_shape gqlGetSpec).1 rfl).2.2.2.1 _ rfl,
   rfl,
   ((graphql_request_wire_shape gqlPostSpec).2 rfl).2⟩

/-- C9: the Authentication Injector adds exactly the selected strategy's
fields when its credentials are truthy (bearer: `Authorization: Bearer
<token>`; api-key: the `apiKeyHeader`-named header, defaulting to
`X-API-Key`; basic: the transport-level username/password pair), leaves
the descriptor completely unchanged when required credentials are absent,
and never touches method, url, timeout, query params, body data, or
response type. -/
theorem applyAuth_spec (params : RequestSpec) (config : AxiosConfig) :
    ((applyAuth params config).method = config.method ∧
     (applyAuth params config).url = config.url ∧
     (applyAuth params config).timeout = config.timeout ∧
     (applyAuth params config).params = config.params ∧
     (applyAuth params config).data = config.data ∧
     (applyAuth params config).responseType = config.responseType) ∧
    (params.authType = AuthType.none → applyAuth params config = config) ∧
    (params.authType = AuthType.bearer →
      (∀ t, params.bearerToken = some t → t ≠ "" →
        (applyAuth params config).headers =
          assocInsert config.headers "Authorization" ("Bearer " ++ t) ∧
        (applyAuth params config).auth = config.auth) ∧
      (truthyStr params.bearerToken = false → applyAuth params config = config)) ∧
    (params.authType = AuthType.apiKey →
      (∀ key, params.apiKey = some key → key ≠ "" →
        (applyAuth params config).headers =
          assocInsert config.headers
            (if params.apiKeyHeader = "" then "X-API-Key" else params.apiKeyHeader)
            key ∧
        (applyAuth params config).auth = config.auth) ∧
      (truthyStr params.apiKey = false → applyAuth params config = config)) ∧
    (params.authType = AuthType.basic →
      (∀ u p, params.username = some u → u ≠ "" → params.password = some p → p ≠ "" →
        (applyAuth params config).auth = some (u, p) ∧
        (applyAuth params config).headers = config.headers) ∧
      (¬(truthyStr params.username = true ∧ truthyStr params.password = true) →
        applyAuth params config = config)) := by
  unfold applyAuth
  cases hat : params.authType
  case none =>
    refine ⟨by simp, fun _ => rfl, ?_, ?_, ?_⟩ <;>
      exact fun h => absurd h (by decide)
  case apiKey =>
    refine ⟨by cases h : truthyStr params.apiKey <;> simp [h],
      fun h => absurd h (by decide),
      fun h => absurd h (by decide), fun _ => ⟨?_, ?_⟩,
      fun h => absurd h (by decide)⟩
    · intro key hk hkne
      simp [hk, truthyStr, hkne]
    · intro hf
      simp [hf]
  case bearer =>
    refine ⟨by cases h : truthyStr params.bearerToken <;> simp [h],
      fun h => absurd h (by decide), fun _ => ⟨?_, ?_⟩,
      fun h => absurd h (by decide), fun h => absurd h (by decide)⟩
    · intro t ht htne
      simp [ht, truthyStr, htne]
    · intro hf
      simp [hf]
  case basic =>
    refine ⟨by cases h : (truthyStr params.username && truthyStr params.password) <;>
        simp [h], fun h => absurd h (by decide),
      fun h => absurd h (by decide), fun h => absurd h (by decide),
      fun _ => ⟨?_, ?_⟩⟩
    · intro u p hu hune hp hpne
      simp [hu, hp, truthyStr, hune, hpne]
    · intro hne
      have hff : (truthyStr params.username && truthyStr params.password) = false := by
        cases h1 : truthyStr params.username <;>
          cases h2 : truthyStr params.password <;> simp_all
      simp [hff]

/-- C9 (witness): bearer injection on a concrete descriptor. -/
theorem applyAuth_spec_witness :
    (applyAuth c9spec c9config).headers =
      assocInsert c9config.headers "Authorization" ("Bearer " ++ "tok") ∧
    (applyAuth c9spec c9config).auth = c9config.auth ∧
    (applyAuth c9spec c9config).data = c9config.data :=
  ⟨(((applyAuth_spec c9spec c9config).2.2.1 rfl).1 "tok" rfl (by decide)).1,
   (((applyAuth_spec c9spec c9config).2.2.1 rfl).1 "tok" rfl (by decide)).2,
   (applyAuth_spec c9spec c9config).1.2.2.2.2.1⟩

/-- C10: on the GraphQL GET path, caller-supplied query parameters named
`query`, `variables`, or `operationName` are overwritten in the outbound
parameters by the GraphQL query string, the JSON-stringified variables,
and the operation name respectively (when variables and a non-empty
operation name are given). -/
theorem graphql_get_overwrites_caller_params (g : GraphQLSpec)
    (qp vs : List (String × JValue)) (op : String) (w1 w2 w3 : JValue)
    (_hm : gqlMethod g = "GET") (_hqp : g.queryParams = some qp)
    (hv : g.«variables» = some vs) (hop : g.operationName = some op) (hops : op ≠ "")
    (_h1 : alookup qp "query" = some w1)
    (_h2 : alookup qp "variables" = some w2)
    (_h3 : alookup qp "operationName" = some w3) :
    (buildGraphQLGetConfig g).params = some (gqlCombinedQueryParams g) ∧
    alookup (gqlCombinedQueryParams g) "query" = some (.str g.query) ∧
    alookup (gqlCombinedQueryParams g) "variables" =
      some (.str (jsonStringify (.obj vs))) ∧
    alookup (gqlCombinedQueryParams g) "operationName" = some (.str op) :=
  ⟨(applyAuthG_frame g _).2.2.1, gqlCombined_query g,
   gqlCombined_variables g vs hv, gqlCombined_operationName g op hop hops⟩

/-- C10 (witness): a concrete GET call with colliding caller parameters. -/
theorem graphql_get_overwrites_caller_params_witness :
    alookup (gqlCombinedQueryParams c10spec) "query" = some (.str "\x7b a \x7d") ∧
    alookup (gqlCombinedQueryParams c10spec) "variables" =
      some (.str "\x7b\"v\":2\x7d") ∧
    alookup (gqlCombinedQueryParams c10spec) "operationName" = some (.str "Op") :=
  (graphql_get_overwrites_caller_params c10spec
    [("query", .str "evil"), ("variables", .str "evil2"), ("operationName", .str "evil3")]
    [("v", .num 2)] "Op" (.str "evil") (.str "evil2") (.str "evil3")
    rfl rfl rfl rfl (by decide) rfl rfl rfl).2

end RestApiMcp
